import Mathlib

/-!
Verification development for the player-ui/tools repository (python).

The development shallowly embeds the XLR type-node model (nodes.py), the
type-guard predicates (guards.py), the JSON deserializer object hook
(deserializer.py) and the class-generator algorithms (generator.py) as
executable Lean definitions, and settles the frozen claims C1..C10 about
them.

Modelling conventions:
- A runtime Python value is a `Value`.  JSON scalars, lists and dicts map
  to the `vnull`/`vbool`/`vnum`/`vstr`/`vlist`/`vdict` constructors;
  Python `None` is `vnull`.  Instances of classes from nodes.py map to the
  dedicated constructors (one per class), each storing exactly the
  attributes the corresponding Python constructor stores.  `vforeign`
  stands for an instance of an unrelated Python class.
- Python dicts are association lists with unique keys; insertion order is
  list order, matching dict iteration order.
- The annotation attributes (Annotations.__init__ keyword arguments) are
  stored as the association list of keyword arguments actually passed,
  mirroring the kwargs dict the source passes through; an absent key reads
  as Python None (`vnull`), like the attribute default.
- Python functions that can raise are embedded with `Except String`;
  total Python functions (the guards, which the spec requires never to
  raise) are embedded as total Lean functions.
-/

/-- Runtime values: JSON data, Python builtins, and instances of the
nodes.py classes. -/
inductive Value where
  | vnull
  | vbool (b : Bool)
  | vnum (n : Int)
  | vstr (s : String)
  | vlist (xs : List Value)
  | vdict (fields : List (String × Value))
  | vforeign (cls : String)
  -- the nine primitive node classes (TypeNode + CommonTypeInfo + Annotations)
  | anyType (const enum : Value) (anns : List (String × Value))
  | unknownType (const enum : Value) (anns : List (String × Value))
  | undefinedType (const enum : Value) (anns : List (String × Value))
  | nullType (const enum : Value) (anns : List (String × Value))
  | voidType (const enum : Value) (anns : List (String × Value))
  | stringType (const enum : Value) (anns : List (String × Value))
  | numberType (const enum : Value) (anns : List (String × Value))
  | booleanType (const enum : Value) (anns : List (String × Value))
  | neverType (const enum : Value) (anns : List (String × Value))
  -- complex node classes
  | refType (ref genericArguments prop : Value) (anns : List (String × Value))
  | objectType (properties extends_ additionalProperties const enum : Value)
      (anns : List (String × Value))
  | arrayType (elementType const enum : Value) (anns : List (String × Value))
  | conditionalType (check val : Value) (anns : List (String × Value))
  | tupleType (elementTypes minItems additionalItems const enum : Value)
      (anns : List (String × Value))
  | andType (andTypes : Value) (anns : List (String × Value))
  | orType (orTypes : Value) (anns : List (String × Value))
  | templateLiteralType (format : Value) (anns : List (String × Value))
  | recordType (keyType valueType : Value) (anns : List (String × Value))
  | functionType (parameters returnType : Value) (anns : List (String × Value))
  -- helper classes
  | objectProperty (required node : Value)
  | tupleMember (ty name optional : Value)
  | functionTypeParameters (name ty optional dflt : Value)
  | paramTypeNode (symbol constraints dflt : Value)
  | namedType (base name source : Value) (anns : List (String × Value))
  | namedTypeWithGenerics (base name source genericTokens : Value)
      (anns : List (String × Value))
deriving Repr

/-- Dictionary read: first binding of a key in an association list
(Python `obj.get(k)` giving `none` for an absent key). -/
def dget : List (String × Value) → String → Option Value
  | [], _ => none
  | (k, v) :: rest, key => if k = key then some v else dget rest key

/-- Python `k in obj` on a dict. -/
def hasKey (fields : List (String × Value)) (key : String) : Bool :=
  (dget fields key).isSome

/-- Python `obj.get(k, d)` with a default. -/
def dgetD (fields : List (String × Value)) (key : String) (dflt : Value) : Value :=
  (dget fields key).getD dflt

/-- Python truthiness of a value (`bool(v)`); class instances are truthy. -/
def pyTruthy : Value → Bool
  | .vnull => false
  | .vbool b => b
  | .vnum n => n != 0
  | .vstr s => s ≠ ""
  | .vlist xs => !xs.isEmpty
  | .vdict fields => !fields.isEmpty
  | _ => true

/-- Is the value a Python `str`? (`isinstance(v, str)`). -/
def isStr : Value → Bool
  | .vstr _ => true
  | _ => false

/-- Is the value Python `None`? -/
def isNone : Value → Bool
  | .vnull => true
  | _ => false

/-! ## guards.py : type-guard predicates

Each guard mirrors one function of guards.py.  `isinstance(obj, C)`
becomes a match on the constructor for class `C`; the named-wrapper
fallthrough in `is_object_type`, `is_array_type` and `is_or_type`
(`is_named_type(obj) and is_P(obj.base_node)`) becomes recursion into the
wrapped node.  All guards are total by construction, which is the
embedding of the never-raise requirement. -/

def is_any_type : Value → Bool
  | .anyType _ _ _ => true
  | _ => false

def is_unknown_type : Value → Bool
  | .unknownType _ _ _ => true
  | _ => false

def is_undefined_type : Value → Bool
  | .undefinedType _ _ _ => true
  | _ => false

def is_null_type : Value → Bool
  | .nullType _ _ _ => true
  | _ => false

def is_void_type : Value → Bool
  | .voidType _ _ _ => true
  | _ => false

def is_string_type : Value → Bool
  | .stringType _ _ _ => true
  | _ => false

def is_number_type : Value → Bool
  | .numberType _ _ _ => true
  | _ => false

def is_boolean_type : Value → Bool
  | .booleanType _ _ _ => true
  | _ => false

def is_never_type : Value → Bool
  | .neverType _ _ _ => true
  | _ => false

def is_ref_type : Value → Bool
  | .refType _ _ _ _ => true
  | _ => false

def is_object_type : Value → Bool
  | .objectType _ _ _ _ _ _ => true
  | .namedType base _ _ _ => is_object_type base
  | .namedTypeWithGenerics base _ _ _ _ => is_object_type base
  | _ => false

def is_array_type : Value → Bool
  | .arrayType _ _ _ _ => true
  | .namedType base _ _ _ => is_array_type base
  | .namedTypeWithGenerics base _ _ _ _ => is_array_type base
  | _ => false

def is_conditional_type : Value → Bool
  | .conditionalType _ _ _ => true
  | _ => false

def is_tuple_type : Value → Bool
  | .tupleType _ _ _ _ _ _ => true
  | _ => false

def is_and_type : Value → Bool
  | .andType _ _ => true
  | _ => false

def is_or_type : Value → Bool
  | .orType _ _ => true
  | .namedType base _ _ _ => is_or_type base
  | .namedTypeWithGenerics base _ _ _ _ => is_or_type base
  | _ => false

def is_template_literal_type : Value → Bool
  | .templateLiteralType _ _ => true
  | _ => false

def is_record_type : Value → Bool
  | .recordType _ _ _ => true
  | _ => false

def is_function_type : Value → Bool
  | .functionType _ _ _ => true
  | _ => false

def is_named_type : Value → Bool
  | .namedType _ _ _ _ => true
  | .namedTypeWithGenerics _ _ _ _ _ => true
  | _ => false

def is_named_type_with_generics : Value → Bool
  | .namedTypeWithGenerics _ _ _ _ _ => true
  | _ => false

/-- The big disjunction of guards.py `is_node_type`, in source order. -/
def is_node_type (v : Value) : Bool :=
  is_any_type v || is_unknown_type v || is_undefined_type v ||
  is_null_type v || is_never_type v || is_string_type v ||
  is_template_literal_type v || is_number_type v || is_boolean_type v ||
  is_object_type v || is_array_type v || is_tuple_type v ||
  is_record_type v || is_and_type v || is_or_type v ||
  is_ref_type v || is_function_type v || is_conditional_type v ||
  is_void_type v

/-- guards.py `is_primitive_type`, in source order. -/
def is_primitive_type (v : Value) : Bool :=
  is_never_type v || is_null_type v || is_string_type v ||
  is_number_type v || is_boolean_type v || is_any_type v ||
  is_unknown_type v || is_undefined_type v || is_void_type v

/-- Attribute read `obj.const`.  The nine primitive classes, ObjectType,
ArrayType and TupleType store a const (CommonTypeInfo); NamedType
delegates the miss to the wrapped node via `__getattribute__`.  Other
values would raise AttributeError in Python; every use site below guards
the access with a primitivity check, so those branches are unreachable
there and read as `vnull`. -/
def constOf : Value → Value
  | .anyType c _ _ => c
  | .unknownType c _ _ => c
  | .undefinedType c _ _ => c
  | .nullType c _ _ => c
  | .voidType c _ _ => c
  | .stringType c _ _ => c
  | .numberType c _ _ => c
  | .booleanType c _ _ => c
  | .neverType c _ _ => c
  | .objectType _ _ _ c _ _ => c
  | .arrayType _ c _ _ => c
  | .tupleType _ _ _ c _ _ => c
  | .namedType base _ _ _ => constOf base
  | .namedTypeWithGenerics base _ _ _ _ => constOf base
  | _ => .vnull

/-- guards.py `is_primitive_const`: primitive and `obj.const is not None`. -/
def is_primitive_const (v : Value) : Bool :=
  is_primitive_type v && !(isNone (constOf v))

/-- Values of unrelated shape: Python None, booleans, numbers, strings,
lists, plain dicts, and instances of classes foreign to nodes.py. -/
def isUnrelatedValue : Value → Bool
  | .vnull => true
  | .vbool _ => true
  | .vnum _ => true
  | .vstr _ => true
  | .vlist _ => true
  | .vdict _ => true
  | .vforeign _ => true
  | _ => false

/-- C1: every base-variant guard predicate and the composite predicates
is_node_type, is_primitive_type and is_primitive_const return the boolean
false on None, plain dicts, strings and values of unrelated classes; the
guards are total Lean functions, which embeds the never-raise requirement. -/
theorem C1_guard_totality (v : Value) (h : isUnrelatedValue v = true) :
    is_any_type v = false ∧ is_unknown_type v = false ∧
    is_undefined_type v = false ∧ is_null_type v = false ∧
    is_void_type v = false ∧ is_string_type v = false ∧
    is_number_type v = false ∧ is_boolean_type v = false ∧
    is_never_type v = false ∧ is_ref_type v = false ∧
    is_object_type v = false ∧ is_array_type v = false ∧
    is_conditional_type v = false ∧ is_tuple_type v = false ∧
    is_and_type v = false ∧ is_or_type v = false ∧
    is_template_literal_type v = false ∧ is_record_type v = false ∧
    is_function_type v = false ∧ is_named_type v = false ∧
    is_named_type_with_generics v = false ∧ is_node_type v = false ∧
    is_primitive_type v = false ∧ is_primitive_const v = false := by
  cases v <;> simp_all [isUnrelatedValue, is_any_type, is_unknown_type,
    is_undefined_type, is_null_type, is_void_type, is_string_type,
    is_number_type, is_boolean_type, is_never_type, is_ref_type,
    is_object_type, is_array_type, is_conditional_type, is_tuple_type,
    is_and_type, is_or_type, is_template_literal_type, is_record_type,
    is_function_type, is_named_type, is_named_type_with_generics,
    is_node_type, is_primitive_type, is_primitive_const]

/-- Witness for C1 at the concrete unrelated value `"hello"`. -/
theorem C1_guard_totality_witness :
    isUnrelatedValue (Value.vstr "hello") = true ∧
    is_node_type (Value.vstr "hello") = false ∧
    is_primitive_const (Value.vstr "hello") = false := by
  refine ⟨rfl, ?_, ?_⟩
  · exact (C1_guard_totality (Value.vstr "hello") rfl).2.2.2.2.2.2.2.2.2.2.2.2.2.2.2.2.2.2.2.2.2.1
  · exact (C1_guard_totality (Value.vstr "hello") rfl).2.2.2.2.2.2.2.2.2.2.2.2.2.2.2.2.2.2.2.2.2.2.2

/-- C2 counterexample: the named wrappers are not transparent to every
variant predicate.  `is_and_type` (cited in the claim sources) returns
true on a bare AndType but false on a NamedType wrapping that same
AndType, refuting the claim as stated. -/
theorem C2_counterexample :
    is_and_type (Value.andType (Value.vlist []) []) = true ∧
    is_and_type (Value.namedType (Value.andType (Value.vlist []) [])
      (Value.vstr "N") (Value.vstr "s") []) = false :=
  ⟨rfl, rfl⟩

/-- C2 amended: exactly three variant predicates see through the named
wrappers — is_object_type, is_array_type and is_or_type agree with the
wrapped node — while every other base-variant predicate returns false on
a named wrapper (both NamedType and NamedTypeWithGenerics). -/
theorem C2_named_wrapper_transparency (base nm src toks : Value)
    (anns : List (String × Value)) :
    is_object_type (Value.namedType base nm src anns) = is_object_type base ∧
    is_array_type (Value.namedType base nm src anns) = is_array_type base ∧
    is_or_type (Value.namedType base nm src anns) = is_or_type base ∧
    is_object_type (Value.namedTypeWithGenerics base nm src toks anns) =
      is_object_type base ∧
    is_array_type (Value.namedTypeWithGenerics base nm src toks anns) =
      is_array_type base ∧
    is_or_type (Value.namedTypeWithGenerics base nm src toks anns) =
      is_or_type base ∧
    is_any_type (Value.namedType base nm src anns) = false ∧
    is_unknown_type (Value.namedType base nm src anns) = false ∧
    is_undefined_type (Value.namedType base nm src anns) = false ∧
    is_null_type (Value.namedType base nm src anns) = false ∧
    is_void_type (Value.namedType base nm src anns) = false ∧
    is_string_type (Value.namedType base nm src anns) = false ∧
    is_number_type (Value.namedType base nm src anns) = false ∧
    is_boolean_type (Value.namedType base nm src anns) = false ∧
    is_never_type (Value.namedType base nm src anns) = false ∧
    is_ref_type (Value.namedType base nm src anns) = false ∧
    is_conditional_type (Value.namedType base nm src anns) = false ∧
    is_tuple_type (Value.namedType base nm src anns) = false ∧
    is_and_type (Value.namedType base nm src anns) = false ∧
    is_template_literal_type (Value.namedType base nm src anns) = false ∧
    is_record_type (Value.namedType base nm src anns) = false ∧
    is_function_type (Value.namedType base nm src anns) = false ∧
    is_any_type (Value.namedTypeWithGenerics base nm src toks anns) = false ∧
    is_unknown_type (Value.namedTypeWithGenerics base nm src toks anns) = false ∧
    is_undefined_type (Value.namedTypeWithGenerics base nm src toks anns) = false ∧
    is_null_type (Value.namedTypeWithGenerics base nm src toks anns) = false ∧
    is_void_type (Value.namedTypeWithGenerics base nm src toks anns) = false ∧
    is_string_type (Value.namedTypeWithGenerics base nm src toks anns) = false ∧
    is_number_type (Value.namedTypeWithGenerics base nm src toks anns) = false ∧
    is_boolean_type (Value.namedTypeWithGenerics base nm src toks anns) = false ∧
    is_never_type (Value.namedTypeWithGenerics base nm src toks anns) = false ∧
    is_ref_type (Value.namedTypeWithGenerics base nm src toks anns) = false ∧
    is_conditional_type (Value.namedTypeWithGenerics base nm src toks anns) = false ∧
    is_tuple_type (Value.namedTypeWithGenerics base nm src toks anns) = false ∧
    is_and_type (Value.namedTypeWithGenerics base nm src toks anns) = false ∧
    is_template_literal_type (Value.namedTypeWithGenerics base nm src toks anns) = false ∧
    is_record_type (Value.namedTypeWithGenerics base nm src toks anns) = false ∧
    is_function_type (Value.namedTypeWithGenerics base nm src toks anns) = false := by
  refine ⟨rfl, rfl, rfl, rfl, rfl, rfl, ?_⟩
  repeat' apply And.intro
  all_goals rfl

/-! ## deserializer.py : the JSON object hook

`json.loads(s, object_hook=...)` transforms the document bottom-up: by the
time the hook sees a dict, its values are already post-hook values.  The
hook itself is therefore embedded as a function on one dict whose values
are arbitrary `Value`s.  Raising `ValueError`/`KeyError` is `Except.error`
(messages are kept free of quote characters). -/

/-- The annotation keys of `_extract_annotation_props`. -/
def annotationKeys : List String :=
  ["name", "title", "description", "examples", "default", "see", "comment", "meta"]

/-- `_extract_annotation_props`: the sub-dict of annotation keys, in
insertion order. -/
def extract_annotation_props (obj : List (String × Value)) : List (String × Value) :=
  obj.filter (fun p => annotationKeys.contains p.1)

/-- The `const` keyword of `_extract_common_props`: the value when the key
is present, otherwise the constructor default None. -/
def commonConst (obj : List (String × Value)) : Value :=
  dgetD obj "const" .vnull

/-- The `enum` keyword of `_extract_common_props`. -/
def commonEnum (obj : List (String × Value)) : Value :=
  dgetD obj "enum" .vnull

/-- Python `obj[k]`: KeyError when the key is absent. -/
def requireKey (obj : List (String × Value)) (k : String) : Except String Value :=
  match dget obj k with
  | some v => .ok v
  | none => .error ("KeyError: " ++ k)

/-- `_is_named_type`. -/
def is_named_type_dict (obj : List (String × Value)) : Bool :=
  hasKey obj "name" && hasKey obj "source"

/-- `_is_object_property`. -/
def is_object_property_dict (obj : List (String × Value)) : Bool :=
  hasKey obj "required" && hasKey obj "node" && !(hasKey obj "type")

/-- `_is_function_type_parameter`. -/
def is_function_type_parameter_dict (obj : List (String × Value)) : Bool :=
  hasKey obj "name" && hasKey obj "type" &&
  (hasKey obj "optional" || hasKey obj "default") &&
  !(isStr (dgetD obj "type" .vnull))

/-- `_is_param_type_node`. -/
def is_param_type_node_dict (obj : List (String × Value)) : Bool :=
  hasKey obj "symbol" && (hasKey obj "constraints" || hasKey obj "default")

/-- `_is_tuple_member`.  In the source this predicate is defined but never
called from the object hook (dead code); it is embedded because claim C9
is about it. -/
def is_tuple_member_dict (obj : List (String × Value)) : Bool :=
  hasKey obj "type" && (hasKey obj "name" || hasKey obj "optional") &&
  !(isStr (dgetD obj "type" .vnull))

/-- `_deserialize_object_property`. -/
def deserialize_object_property (obj : List (String × Value)) : Except String Value := do
  let r ← requireKey obj "required"
  let n ← requireKey obj "node"
  return .objectProperty r n

/-- `_deserialize_tuple_member` (dead code in the source: no call site). -/
def deserialize_tuple_member (obj : List (String × Value)) : Except String Value := do
  let ty ← requireKey obj "type"
  return .tupleMember ty (dgetD obj "name" .vnull) (dgetD obj "optional" .vnull)

/-- `_deserialize_function_type_parameter`. -/
def deserialize_function_type_parameter (obj : List (String × Value)) :
    Except String Value := do
  let nm ← requireKey obj "name"
  let ty ← requireKey obj "type"
  return .functionTypeParameters nm ty (dgetD obj "optional" .vnull)
    (dgetD obj "default" .vnull)

/-- `_deserialize_param_type_node`. -/
def deserialize_param_type_node (obj : List (String × Value)) : Except String Value := do
  let s ← requireKey obj "symbol"
  return .paramTypeNode s (dgetD obj "constraints" .vnull) (dgetD obj "default" .vnull)

/-- `_deserialize_by_type`: tag dispatch to the per-variant constructors,
with the source extraction of variant-specific, annotation and const/enum
fields.  An unknown tag raises. -/
def deserialize_by_type (node_type : String) (obj : List (String × Value)) :
    Except String Value :=
  match node_type with
  | "any" => .ok (.anyType (commonConst obj) (commonEnum obj) (extract_annotation_props obj))
  | "unknown" =>
      .ok (.unknownType (commonConst obj) (commonEnum obj) (extract_annotation_props obj))
  | "undefined" =>
      .ok (.undefinedType (commonConst obj) (commonEnum obj) (extract_annotation_props obj))
  | "null" => .ok (.nullType (commonConst obj) (commonEnum obj) (extract_annotation_props obj))
  | "void" => .ok (.voidType (commonConst obj) (commonEnum obj) (extract_annotation_props obj))
  | "string" =>
      .ok (.stringType (commonConst obj) (commonEnum obj) (extract_annotation_props obj))
  | "number" =>
      .ok (.numberType (commonConst obj) (commonEnum obj) (extract_annotation_props obj))
  | "boolean" =>
      .ok (.booleanType (commonConst obj) (commonEnum obj) (extract_annotation_props obj))
  | "never" => .ok (.neverType (commonConst obj) (commonEnum obj) (extract_annotation_props obj))
  | "ref" => do
      let r ← requireKey obj "ref"
      return .refType r (dgetD obj "genericArguments" .vnull) (dgetD obj "property" .vnull)
        (extract_annotation_props obj)
  | "object" =>
      .ok (.objectType (dgetD obj "properties" (.vdict [])) (dgetD obj "extends" .vnull)
        (dgetD obj "additionalProperties" (.vbool false)) (commonConst obj) (commonEnum obj)
        (extract_annotation_props obj))
  | "array" => do
      let e ← requireKey obj "elementType"
      return .arrayType e (commonConst obj) (commonEnum obj) (extract_annotation_props obj)
  | "tuple" => do
      let ets ← requireKey obj "elementTypes"
      let mi ← requireKey obj "minItems"
      return .tupleType ets mi (dgetD obj "additionalItems" (.vbool false)) (commonConst obj)
        (commonEnum obj) (extract_annotation_props obj)
  | "and" =>
      .ok (.andType (((dget obj "and").orElse (fun _ => dget obj "and_types")).getD (.vlist []))
        (extract_annotation_props obj))
  | "or" =>
      .ok (.orType (((dget obj "or").orElse (fun _ => dget obj "or_types")).getD (.vlist []))
        (extract_annotation_props obj))
  | "template" => do
      let f ← requireKey obj "format"
      return .templateLiteralType f (extract_annotation_props obj)
  | "record" => do
      let kt ← requireKey obj "keyType"
      let vt ← requireKey obj "valueType"
      return .recordType kt vt (extract_annotation_props obj)
  | "function" =>
      .ok (.functionType (dgetD obj "parameters" (.vlist [])) (dgetD obj "returnType" .vnull)
        (extract_annotation_props obj))
  | "conditional" => do
      let c ← requireKey obj "check"
      let v ← requireKey obj "value"
      return .conditionalType c v (extract_annotation_props obj)
  | _ => .error ("Unknown node type: " ++ node_type)

/-- The keys `_deserialize_named_type` strips from the base object. -/
def namedStripKeys : List String := ["name", "typeName", "source", "genericTokens"]

theorem dget_isSome_mem {fields : List (String × Value)} {k : String}
    (h : (dget fields k).isSome) : ∃ v, (k, v) ∈ fields := by
  induction fields with
  | nil => simp [dget] at h
  | cons p rest ih =>
    by_cases hk : p.1 = k
    · exact ⟨p.2, by simp [← hk]⟩
    · rw [dget, show p = (p.1, p.2) from rfl] at h
      simp only [hk, if_false] at h
      obtain ⟨v, hv⟩ := ih h
      exact ⟨v, List.mem_cons_of_mem _ hv⟩

theorem length_filter_lt_of_mem {α : Type} {l : List α} {p : α → Bool} {a : α}
    (ha : a ∈ l) (hpa : p a = false) : (l.filter p).length < l.length := by
  induction l with
  | nil => cases ha
  | cons b rest ih =>
    rcases List.mem_cons.mp ha with h | h
    · subst h
      have h1 : List.filter p (a :: rest) = List.filter p rest := by
        simp [List.filter_cons, hpa]
      rw [h1]
      exact Nat.lt_succ_of_le (List.length_filter_le p rest)
    · cases hq : p b
      · have h1 : List.filter p (b :: rest) = List.filter p rest := by
          simp [List.filter_cons, hq]
        rw [h1]
        exact Nat.lt_succ_of_lt (ih h)
      · have h1 : List.filter p (b :: rest) = b :: List.filter p rest := by
          simp [List.filter_cons, hq]
        rw [h1, List.length_cons, List.length_cons]
        exact Nat.succ_lt_succ (ih h)

/-- `_deserialize_object_hook`, with `_deserialize_named_type` inlined (it
is the only recursive call; the hook recurses on the object with the
`name`, `typeName`, `source`, `genericTokens` keys removed, which is
strictly shorter because `name` is present on that branch). -/
def object_hook (fields : List (String × Value)) : Except String Value :=
  if hnamed : is_named_type_dict fields = true then
    -- _deserialize_named_type
    let baseObj := fields.filter (fun p => !(namedStripKeys.contains p.1))
    let annKwargs := (extract_annotation_props fields).filter (fun p => p.1 ≠ "name")
    let nm := ((dget fields "name").orElse (fun _ => dget fields "typeName")).getD (.vstr "")
    let src := dgetD fields "source" .vnull   -- key present: the branch guard requires it
    match object_hook baseObj with
    | .error e => .error e
    | .ok base =>
      if hasKey fields "genericTokens" then
        .ok (.namedTypeWithGenerics base nm src (dgetD fields "genericTokens" .vnull) annKwargs)
      else
        .ok (.namedType base nm src annKwargs)
  else if is_object_property_dict fields then deserialize_object_property fields
  else if is_function_type_parameter_dict fields then deserialize_function_type_parameter fields
  else if is_param_type_node_dict fields then deserialize_param_type_node fields
  else
    match dget fields "type" with
    | some (.vstr s) =>
        if s = "" then .ok (.vdict fields)   -- falsy tag: `if not node_type` returns the dict
        else
          match deserialize_by_type s fields with
          | .ok v => .ok v
          | .error e => .error ("Failed to deserialize node of type " ++ s ++ ": " ++ e)
    | _ => .ok (.vdict fields)   -- tag absent or not a string: the dict is returned as-is
termination_by fields.length
decreasing_by
  have hname : (dget fields "name").isSome := by
    have := hnamed
    unfold is_named_type_dict hasKey at this
    exact (Bool.and_eq_true _ _ |>.mp this).1
  obtain ⟨v, hv⟩ := dget_isSome_mem hname
  exact length_filter_lt_of_mem hv (by simp [namedStripKeys])

/-! ## Claims C3, C8, C9, C10 about the object hook -/

/-- The sixteen-entry dispatch table keys of `_deserialize_by_type`
(`type_map`). -/
def knownNodeTags : List String :=
  ["any", "unknown", "undefined", "null", "void", "string", "number", "boolean",
   "never", "ref", "object", "array", "tuple", "and", "or", "template", "record",
   "function", "conditional"]

/-- The classification procedure exactly as claim C3 words it: (1) keys
name and source present gives NamedType (NamedTypeWithGenerics iff a
genericTokens key is present, the wrapped base node deserialized from the
same object with name, typeName, source, genericTokens keys removed);
(2) keys required and node present and no type key gives ObjectProperty;
(3) keys name and type present, optional or default present, and the
value under type not a plain string gives FunctionTypeParameters; (4) key
symbol present and constraints or default present gives ParamTypeNode;
(5) otherwise dispatch on a string-valued type field to the per-variant
constructor.  The wrapper name/source/annotation extraction, the helper
constructors and the tag dispatch are shared with the code embedding;
this definition pins the sniffing priority order. -/
def spec_object_hook (fields : List (String × Value)) : Except String Value :=
  -- (1) name and source present
  if hasKey fields "name" && hasKey fields "source" then
    match object_hook (fields.filter (fun p => !(namedStripKeys.contains p.1))) with
    | .error e => .error e
    | .ok base =>
      let nm := ((dget fields "name").orElse (fun _ => dget fields "typeName")).getD (.vstr "")
      let src := dgetD fields "source" .vnull
      let annKwargs := (extract_annotation_props fields).filter (fun p => p.1 ≠ "name")
      -- NamedTypeWithGenerics iff a genericTokens key is present
      if hasKey fields "genericTokens" then
        .ok (.namedTypeWithGenerics base nm src (dgetD fields "genericTokens" .vnull) annKwargs)
      else
        .ok (.namedType base nm src annKwargs)
  -- (2) required and node present and no type key
  else if hasKey fields "required" && hasKey fields "node" && !(hasKey fields "type") then
    deserialize_object_property fields
  -- (3) name and type present, optional or default present, type value not a plain string
  else if hasKey fields "name" && hasKey fields "type" &&
      (hasKey fields "optional" || hasKey fields "default") &&
      !(isStr (dgetD fields "type" .vnull)) then
    deserialize_function_type_parameter fields
  -- (4) symbol present and constraints or default present
  else if hasKey fields "symbol" && (hasKey fields "constraints" || hasKey fields "default") then
    deserialize_param_type_node fields
  -- (5) tag dispatch on a string-valued type field
  else
    match dget fields "type" with
    | some (.vstr s) =>
        if s = "" then .ok (.vdict fields)
        else
          match deserialize_by_type s fields with
          | .ok v => .ok v
          | .error e => .error ("Failed to deserialize node of type " ++ s ++ ": " ++ e)
    | _ => .ok (.vdict fields)

/-- C3: the object hook classifies every JSON object by key-set sniffing
in exactly the fixed priority order of the claim before tag dispatch:
named type, object property, function-type parameter, generic parameter
token, then string tag dispatch. -/
theorem C3_sniffing_priority_order (fields : List (String × Value)) :
    object_hook fields = spec_object_hook fields := by
  rw [object_hook]
  rfl

/-- An unknown tag makes `_deserialize_by_type` raise naming the tag. -/
theorem deserialize_by_type_unknown (s : String) (fields : List (String × Value))
    (h : s ∉ knownNodeTags) :
    deserialize_by_type s fields = .error ("Unknown node type: " ++ s) := by
  simp only [knownNodeTags, List.mem_cons, List.not_mem_nil, or_false] at h
  push_neg at h
  rw [deserialize_by_type.eq_def]
  split <;> simp_all

/-- C8 counterexample: two JSON objects carrying a string-valued `type`
field whose value is not a known discriminant, yet deserialization does
not fail.  The first is sniffed as a generic parameter token before tag
dispatch is reached (the bogus tag is silently dropped); the second has
an empty-string tag, which is falsy in Python, so the object passes
through untouched. -/
theorem C8_counterexample :
    object_hook [("symbol", .vstr "T"), ("default", .vnum 5), ("type", .vstr "bogus")] =
      .ok (.paramTypeNode (.vstr "T") .vnull (.vnum 5)) ∧
    object_hook [("type", .vstr "")] = .ok (.vdict [("type", .vstr "")]) := by
  constructor <;>
    simp [object_hook, is_named_type_dict, is_object_property_dict,
      is_function_type_parameter_dict, is_param_type_node_dict, hasKey, dget,
      dgetD, isStr, deserialize_param_type_node, requireKey]

/-- C8 amended: for every JSON object that matches none of the four
sniffed helper shapes and carries a truthy (non-empty) string-valued type
field outside the sixteen-entry dispatch table, deserialization fails
with an error that names the offending discriminant. -/
theorem C8_unknown_tag_raises (fields : List (String × Value)) (s : String)
    (h1 : is_named_type_dict fields = false)
    (h2 : is_object_property_dict fields = false)
    (h3 : is_function_type_parameter_dict fields = false)
    (h4 : is_param_type_node_dict fields = false)
    (htype : dget fields "type" = some (.vstr s))
    (hne : s ≠ "")
    (hunknown : s ∉ knownNodeTags) :
    object_hook fields =
      .error ("Failed to deserialize node of type " ++ s ++ ": " ++
        ("Unknown node type: " ++ s)) := by
  rw [object_hook]
  rw [dif_neg (by simp [h1]), if_neg (by simp [h2]), if_neg (by simp [h3]),
    if_neg (by simp [h4]), htype]
  simp only [if_neg hne]
  rw [deserialize_by_type_unknown s fields hunknown]

/-- Witness for C8 amended at the concrete input with tag "bogus". -/
theorem C8_unknown_tag_raises_witness :
    object_hook [("type", .vstr "bogus")] =
      .error ("Failed to deserialize node of type bogus: Unknown node type: bogus") := by
  have h := C8_unknown_tag_raises [("type", .vstr "bogus")] "bogus" rfl rfl rfl rfl rfl
    (by decide) (by decide)
  rw [h]
  rfl

/-- C9: the object hook never reconstructs a TupleMember.  At the
concrete tuple-member shaped dict (a non-string value under `type`
together with a `name` key), the dead predicate `_is_tuple_member` of the
source recognises the shape, yet the hook returns the dict unchanged, and
a deserialized TupleType therefore keeps the raw dict in its
elementTypes list. -/
theorem C9_tuple_member_not_reconstructed :
    is_tuple_member_dict [("name", .vstr "first"), ("type", .stringType .vnull .vnull [])]
      = true ∧
    object_hook [("name", .vstr "first"), ("type", .stringType .vnull .vnull [])] =
      .ok (.vdict [("name", .vstr "first"), ("type", .stringType .vnull .vnull [])]) ∧
    object_hook [("type", .vstr "tuple"),
        ("elementTypes", .vlist [.vdict [("name", .vstr "first"),
          ("type", .stringType .vnull .vnull [])]]),
        ("minItems", .vnum 1)] =
      .ok (.tupleType
        (.vlist [.vdict [("name", .vstr "first"), ("type", .stringType .vnull .vnull [])]])
        (.vnum 1) (.vbool false) .vnull .vnull []) := by
  refine ⟨rfl, ?_, ?_⟩ <;>
    simp [object_hook, is_named_type_dict, is_object_property_dict,
      is_function_type_parameter_dict, is_param_type_node_dict, hasKey, dget,
      dgetD, isStr, deserialize_by_type, requireKey, commonConst, commonEnum,
      extract_annotation_props, annotationKeys] <;> rfl

/-- C10: a JSON object that matches none of the four sniffed helper
shapes and lacks a string-valued type key is returned unchanged as a
plain dict, with no error raised. -/
theorem C10_unrecognized_object_passthrough (fields : List (String × Value))
    (h1 : is_named_type_dict fields = false)
    (h2 : is_object_property_dict fields = false)
    (h3 : is_function_type_parameter_dict fields = false)
    (h4 : is_param_type_node_dict fields = false)
    (h5 : ∀ v, dget fields "type" = some v → isStr v = false) :
    object_hook fields = .ok (.vdict fields) := by
  rw [object_hook]
  rw [dif_neg (by simp [h1]), if_neg (by simp [h2]), if_neg (by simp [h3]),
    if_neg (by simp [h4])]
  cases htype : dget fields "type" with
  | none => rfl
  | some v =>
    cases v <;> first
      | rfl
      | exact absurd (h5 _ htype) (by simp [isStr])

/-- Witness for C10 at the concrete untyped dict. -/
theorem C10_unrecognized_object_passthrough_witness :
    object_hook [("foo", .vnum 1)] = .ok (.vdict [("foo", .vnum 1)]) :=
  C10_unrecognized_object_passthrough [("foo", .vnum 1)] rfl rfl rfl rfl
    (by intro v hv; simp [dget] at hv)

/-! ## generator.py : intersection merging (claim C4)

`_merge_object_types` folds the constituents of an intersection into one
merged property dict.  Python dict semantics: assignment to an existing
key replaces the value in place (keeping the insertion position),
assignment to a fresh key appends. -/

/-- Python `a or b` (returns the first operand when it is truthy). -/
def pyOr (a b : Value) : Value := if pyTruthy a then a else b

/-- Python `d[k] = v`: replace the first binding in place, else append. -/
def dset : List (String × Value) → String → Value → List (String × Value)
  | [], k, v => [(k, v)]
  | (k', v') :: rest, k, v =>
      if k' = k then (k, v) :: rest else (k', v') :: dset rest k v

/-- `actual_obj_type = obj_type.base_node if is_named_type(obj_type) else obj_type`. -/
def unwrapNamed : Value → Value
  | .namedType base _ _ _ => base
  | .namedTypeWithGenerics base _ _ _ _ => base
  | v => v

/-- Attribute read `prop.required` (the merge loop only reads it off
ObjectProperty instances; anything else would raise AttributeError in
Python and is unreachable under the claims proved below). -/
def requiredOf : Value → Value
  | .objectProperty r _ => r
  | _ => .vnull

/-- Attribute read `prop.node` (same proviso as `requiredOf`). -/
def nodeOf : Value → Value
  | .objectProperty _ n => n
  | _ => .vnull

/-- Attribute read `obj.properties` (ObjectType field; NamedType delegates
to the wrapped node via `__getattribute__`). -/
def propertiesOf : Value → Value
  | .objectType props _ _ _ _ _ => props
  | .namedType base _ _ _ => propertiesOf base
  | .namedTypeWithGenerics base _ _ _ _ => propertiesOf base
  | _ => .vnull

/-- One iteration of the inner property loop of `_merge_object_types`:
an already-present name gets ObjectProperty(existing.required or
new.required, new.node); a fresh name stores the constituent property
object unchanged. -/
def mergePropStep (merged : List (String × Value)) (kv : String × Value) :
    List (String × Value) :=
  match dget merged kv.1 with
  | some existing =>
      dset merged kv.1
        (.objectProperty (pyOr (requiredOf existing) (requiredOf kv.2)) (nodeOf kv.2))
  | none => dset merged kv.1 kv.2

/-- The per-constituent property list the merge loop iterates: unwrap one
named layer, and when the result is object-shaped take its properties
dict (a non-dict properties value cannot be iterated and is modelled as
contributing nothing; Python would raise there, and the claims below
only quantify over dict-shaped properties). -/
def mergeConstituentProps (obj : Value) : List (String × Value) :=
  let actual := unwrapNamed obj
  if is_object_type actual then
    match propertiesOf actual with
    | .vdict props => props
    | _ => []
  else []

/-- The merged-properties computation of `_merge_object_types`. -/
def merge_object_types_properties (object_types : List Value) :
    List (String × Value) :=
  object_types.foldl (fun merged obj =>
    (mergeConstituentProps obj).foldl mergePropStep merged) []

/-- All bindings a property name receives across the constituents, in
iteration order. -/
def propOccurrences (object_types : List Value) (k : String) : List Value :=
  ((object_types.map mergeConstituentProps).flatten.filter
    (fun p => p.1 = k)).map Prod.snd

/-- The accumulated result the merge loop assigns for one key, given the
bindings in order. -/
def mergeOccs : Option Value → List Value → Option Value
  | acc, [] => acc
  | none, p :: ps => mergeOccs (some p) ps
  | some q, p :: ps =>
      mergeOccs (some (.objectProperty (pyOr (requiredOf q) (requiredOf p)) (nodeOf p))) ps

theorem dget_dset_self (m : List (String × Value)) (k : String) (v : Value) :
    dget (dset m k v) k = some v := by
  induction m with
  | nil => simp [dset, dget]
  | cons p rest ih =>
    obtain ⟨a, w⟩ := p
    by_cases h : a = k
    · simp [dset, dget, h]
    · simp [dset, dget, h, ih]

theorem dget_dset_ne (m : List (String × Value)) (k k' : String) (v : Value)
    (h : k' ≠ k) : dget (dset m k v) k' = dget m k' := by
  induction m with
  | nil => simp [dset, dget, Ne.symm h]
  | cons p rest ih =>
    obtain ⟨a, w⟩ := p
    by_cases hk : a = k
    · subst hk
      simp [dset, dget, Ne.symm h]
    · by_cases hk' : a = k'
      · simp [dset, dget, hk, hk', h]
      · simp [dset, dget, hk, hk', ih]

theorem dget_mergePropStep (merged : List (String × Value)) (kv : String × Value)
    (k : String) :
    dget (mergePropStep merged kv) k =
      if kv.1 = k then
        match dget merged k with
        | some q => some (.objectProperty (pyOr (requiredOf q) (requiredOf kv.2)) (nodeOf kv.2))
        | none => some kv.2
      else dget merged k := by
  by_cases hk : kv.1 = k
  · subst hk
    simp only [mergePropStep, if_pos rfl]
    cases h : dget merged kv.1 with
    | none => simp [h, dget_dset_self]
    | some q => simp [h, dget_dset_self]
  · simp only [mergePropStep, if_neg hk]
    cases h : dget merged kv.1 with
    | none => exact dget_dset_ne _ _ _ _ (Ne.symm hk)
    | some q => exact dget_dset_ne _ _ _ _ (Ne.symm hk)

theorem dget_foldl_mergePropStep (props : List (String × Value))
    (merged : List (String × Value)) (k : String) :
    dget (props.foldl mergePropStep merged) k =
      mergeOccs (dget merged k) ((props.filter (fun p => p.1 = k)).map Prod.snd) := by
  induction props generalizing merged with
  | nil => simp [mergeOccs]
  | cons kv rest ih =>
    rw [List.foldl_cons, ih]
    by_cases hk : kv.1 = k
    · have hf : List.filter (fun p => p.1 = k) (kv :: rest) =
          kv :: List.filter (fun p => p.1 = k) rest := by
        simp [List.filter_cons, hk]
      rw [hf, List.map_cons, dget_mergePropStep, if_pos hk]
      cases h : dget merged k with
      | none => simp [mergeOccs]
      | some q => simp [mergeOccs]
    · have hf : List.filter (fun p => p.1 = k) (kv :: rest) =
          List.filter (fun p => p.1 = k) rest := by
        simp [List.filter_cons, hk]
      rw [hf, dget_mergePropStep, if_neg hk]

theorem merge_eq_flat_fold (object_types : List Value) :
    merge_object_types_properties object_types =
      ((object_types.map mergeConstituentProps).flatten).foldl mergePropStep [] := by
  rw [merge_object_types_properties]
  generalize ([] : List (String × Value)) = acc
  induction object_types generalizing acc with
  | nil => simp
  | cons obj rest ih =>
    rw [List.foldl_cons, ih, List.map_cons, List.flatten_cons, List.foldl_append]

theorem mergeOccs_of_bool_props (occs : List Value) (b : Bool) (n : Value)
    (hwf : ∀ q ∈ occs, ∃ bq nq, q = Value.objectProperty (.vbool bq) nq) :
    mergeOccs (some (.objectProperty (.vbool b) n)) occs =
      some (.objectProperty
        (.vbool (b || occs.any (fun q => pyTruthy (requiredOf q))))
        (nodeOf (occs.getLastD (.objectProperty (.vbool b) n)))) := by
  induction occs generalizing b n with
  | nil => simp [mergeOccs, nodeOf]
  | cons p ps ih =>
    obtain ⟨bp, np, hp⟩ := hwf p (by simp)
    subst hp
    have hstep : pyOr (requiredOf (Value.objectProperty (.vbool b) n))
        (requiredOf (Value.objectProperty (.vbool bp) np)) = .vbool (b || bp) := by
      cases b <;> simp [pyOr, requiredOf, pyTruthy]
    rw [mergeOccs, hstep, nodeOf,
      ih (b || bp) np (fun q hq => hwf q (by simp [hq]))]
    cases ps with
    | nil => simp [requiredOf, pyTruthy, List.getLastD, nodeOf, Bool.or_assoc]
    | cons r rs =>
      simp [requiredOf, pyTruthy, List.getLastD, Bool.or_assoc]

/-- C4: when the flattened constituents of an intersection are
object-shaped, a property name bound in more than one constituent merges
to ObjectProperty(required = logical OR of the required flags of all of
its bindings, node = the node of the last binding): required from OR,
value from last-wins. -/
theorem C4_intersection_merge_tiebreak (object_types : List Value) (k : String)
    (p : Value) (ps : List Value)
    (hocc : propOccurrences object_types k = p :: ps)
    (hmulti : 2 ≤ (p :: ps).length)
    (hwf : ∀ q ∈ propOccurrences object_types k,
      ∃ bq nq, q = Value.objectProperty (.vbool bq) nq) :
    dget (merge_object_types_properties object_types) k =
      some (.objectProperty
        (.vbool ((p :: ps).any (fun q => pyTruthy (requiredOf q))))
        (nodeOf ((p :: ps).getLastD p))) := by
  have hflat := dget_foldl_mergePropStep
    ((object_types.map mergeConstituentProps).flatten) [] k
  rw [merge_eq_flat_fold, hflat]
  have hocc' : ((((object_types.map mergeConstituentProps).flatten).filter
      (fun q => q.1 = k)).map Prod.snd) = p :: ps := hocc
  rw [show dget [] k = none from rfl, hocc']
  obtain ⟨bp, np, hp⟩ := hwf p (by rw [hocc]; simp)
  subst hp
  rw [mergeOccs, mergeOccs_of_bool_props ps bp np
    (fun q hq => hwf q (by rw [hocc]; simp [hq]))]
  have hany : (bp || ps.any (fun q => pyTruthy (requiredOf q))) =
      (Value.objectProperty (.vbool bp) np :: ps).any (fun q => pyTruthy (requiredOf q)) := by
    simp [requiredOf, pyTruthy]
  rw [hany, List.getLastD_cons]

/-- First merge constituent of the witness: ObjectType with property a
required. -/
def mergeDemoA : Value :=
  .objectType (.vdict [("a", .objectProperty (.vbool true) (.stringType .vnull .vnull []))])
    .vnull (.vbool false) .vnull .vnull []

/-- Second merge constituent of the witness: ObjectType with property a
optional and property b required. -/
def mergeDemoB : Value :=
  .objectType (.vdict
      [("a", .objectProperty (.vbool false) (.numberType .vnull .vnull [])),
       ("b", .objectProperty (.vbool true) (.booleanType .vnull .vnull []))])
    .vnull (.vbool false) .vnull .vnull []

/-- Witness for C4 at the intersection of the spec test scenario: a is
required in the first constituent and optional in the second, so the
merge stores a as required (OR) with the node of the second constituent
(last-wins). -/
theorem C4_intersection_merge_tiebreak_witness :
    dget (merge_object_types_properties [mergeDemoA, mergeDemoB]) "a" =
      some (.objectProperty (.vbool true) (.numberType .vnull .vnull [])) := by
  have h := C4_intersection_merge_tiebreak [mergeDemoA, mergeDemoB] "a"
    (.objectProperty (.vbool true) (.stringType .vnull .vnull []))
    [.objectProperty (.vbool false) (.numberType .vnull .vnull [])]
    rfl (by simp)
    (by
      intro q hq
      rw [show propOccurrences [mergeDemoA, mergeDemoB] "a" =
        [.objectProperty (.vbool true) (.stringType .vnull .vnull []),
         .objectProperty (.vbool false) (.numberType .vnull .vnull [])] from rfl] at hq
      simp only [List.mem_cons, List.not_mem_nil, or_false] at hq
      rcases hq with h1 | h2
      · exact ⟨true, .stringType .vnull .vnull [], h1⟩
      · exact ⟨false, .numberType .vnull .vnull [], h2⟩)
  exact h

/-! ## generator.py : generic resolution (claim C5)

`_get_properties_info` resolves a property whose node is a RefType naming
a generic token.  The source runs

  node = deepcopy(prop_obj.node)
  node = self.generic_tokens[prop_obj.node.ref].default
  node.title = prop_obj.node.title
  node.description = prop_obj.node.description

so the deep copy is discarded immediately and `node` aliases the default
node stored inside the token table; the attribute assignments mutate that
shared object in place.  The embedding passes the token-table state
explicitly so the mutation of the stored default is observable. -/

/-- Attribute read of an annotation slot (`node.title`, `node.description`
and friends): every node class runs Annotations.__init__, absent keyword
arguments read as None.  NamedType stores its own annotation slots, so no
delegation happens for these.  Values without annotation slots would
raise AttributeError; unreachable at the use sites below. -/
def annOf (v : Value) (key : String) : Value :=
  match v with
  | .anyType _ _ anns => dgetD anns key .vnull
  | .unknownType _ _ anns => dgetD anns key .vnull
  | .undefinedType _ _ anns => dgetD anns key .vnull
  | .nullType _ _ anns => dgetD anns key .vnull
  | .voidType _ _ anns => dgetD anns key .vnull
  | .stringType _ _ anns => dgetD anns key .vnull
  | .numberType _ _ anns => dgetD anns key .vnull
  | .booleanType _ _ anns => dgetD anns key .vnull
  | .neverType _ _ anns => dgetD anns key .vnull
  | .refType _ _ _ anns => dgetD anns key .vnull
  | .objectType _ _ _ _ _ anns => dgetD anns key .vnull
  | .arrayType _ _ _ anns => dgetD anns key .vnull
  | .conditionalType _ _ anns => dgetD anns key .vnull
  | .tupleType _ _ _ _ _ anns => dgetD anns key .vnull
  | .andType _ anns => dgetD anns key .vnull
  | .orType _ anns => dgetD anns key .vnull
  | .templateLiteralType _ anns => dgetD anns key .vnull
  | .recordType _ _ anns => dgetD anns key .vnull
  | .functionType _ _ anns => dgetD anns key .vnull
  | .namedType _ _ _ anns => dgetD anns key .vnull
  | .namedTypeWithGenerics _ _ _ _ anns => dgetD anns key .vnull
  | _ => .vnull

/-- Attribute write of an annotation slot (`node.title = x`). -/
def setAnn (v : Value) (key : String) (x : Value) : Value :=
  match v with
  | .anyType c e anns => .anyType c e (dset anns key x)
  | .unknownType c e anns => .unknownType c e (dset anns key x)
  | .undefinedType c e anns => .undefinedType c e (dset anns key x)
  | .nullType c e anns => .nullType c e (dset anns key x)
  | .voidType c e anns => .voidType c e (dset anns key x)
  | .stringType c e anns => .stringType c e (dset anns key x)
  | .numberType c e anns => .numberType c e (dset anns key x)
  | .booleanType c e anns => .booleanType c e (dset anns key x)
  | .neverType c e anns => .neverType c e (dset anns key x)
  | .refType r g pr anns => .refType r g pr (dset anns key x)
  | .objectType p ex ap c e anns => .objectType p ex ap c e (dset anns key x)
  | .arrayType el c e anns => .arrayType el c e (dset anns key x)
  | .conditionalType ch va anns => .conditionalType ch va (dset anns key x)
  | .tupleType et mi ai c e anns => .tupleType et mi ai c e (dset anns key x)
  | .andType ts anns => .andType ts (dset anns key x)
  | .orType ts anns => .orType ts (dset anns key x)
  | .templateLiteralType f anns => .templateLiteralType f (dset anns key x)
  | .recordType kt vt anns => .recordType kt vt (dset anns key x)
  | .functionType pa rt anns => .functionType pa rt (dset anns key x)
  | .namedType b n so anns => .namedType b n so (dset anns key x)
  | .namedTypeWithGenerics b n so g anns => .namedTypeWithGenerics b n so g (dset anns key x)
  | other => other

/-- Attribute read `token.default` on a ParamTypeNode. -/
def paramDefaultOf : Value → Value
  | .paramTypeNode _ _ d => d
  | _ => .vnull

/-- The token with its default slot holding the given (mutated) object. -/
def setParamDefault : Value → Value → Value
  | .paramTypeNode s c _, d => .paramTypeNode s c d
  | v, _ => v

/-- Attribute read `node.ref` on a RefType. -/
def refOf : Value → Value
  | .refType r _ _ _ => r
  | _ => .vnull

/-- The generic-resolution step of `_get_properties_info` for one
property node, with the generic-token table threaded explicitly.  When
the node is a RefType whose ref names a (truthy) table entry, the source
rebinds `node` to the entry default (the deepcopy result is discarded
unused) and assigns the property title and description onto it, mutating
the shared stored default; the returned table reflects that in-place
mutation.  Otherwise the node and the table are untouched. -/
def resolve_generic_property (generic_tokens : List (String × Value))
    (propNode : Value) : Value × List (String × Value) :=
  match propNode with
  | .refType (.vstr r) _ _ _ =>
    (match dget generic_tokens r with
     | some tok =>
       if pyTruthy tok then
         let _copy := propNode   -- deepcopy(prop_obj.node), immediately overwritten
         let node0 := paramDefaultOf tok
         let node1 := setAnn node0 "title" (annOf propNode "title")
         let node2 := setAnn node1 "description" (annOf propNode "description")
         (node2, dset generic_tokens r (setParamDefault tok node2))
       else (propNode, generic_tokens)
     | none => (propNode, generic_tokens))
  | _ => (propNode, generic_tokens)

/-- C5: the claim says resolving a generic parameter substitutes the
token default only on a private copy, leaving the stored default (in
particular its title and description) unchanged.  The code instead
mutates the shared stored default: after processing a property that
resolves token T, the title stored in the token table default has become
the property title and is no longer the original one. -/
theorem C5_code_bug :
    annOf (paramDefaultOf (dgetD
      (resolve_generic_property
        [("T", .paramTypeNode (.vstr "T") .vnull
          (.stringType .vnull .vnull [("title", .vstr "origTitle")]))]
        (.refType (.vstr "T") .vnull .vnull
          [("title", .vstr "propTitle"), ("description", .vstr "propDesc")])).2
      "T" .vnull)) "title" = .vstr "propTitle" ∧
    annOf (paramDefaultOf (dgetD
      [("T", .paramTypeNode (.vstr "T") .vnull
        (.stringType .vnull .vnull [("title", .vstr "origTitle")]))]
      "T" .vnull)) "title" = .vstr "origTitle" ∧
    "propTitle" ≠ "origTitle" :=
  ⟨rfl, rfl, by decide⟩

/-! ## generator.py : module-body assembly (claim C6)

`generate` builds `module.body` as: the imports, then for every name of
`self.classes` (the discovery-ordered class-name list) that is scheduled
in `self.classes_to_generate`, `module.body.insert(base_length, cls)`
with the fixed index `base_length = len(imports)`, and finally
`module.body.append(main_class)`. -/

/-- One emitted item of the generated module body. -/
inductive BodyItem where
  | importItem (i : Nat)
  | nestedClass (name : String)
  | mainClass (name : String)
deriving Repr, DecidableEq

/-- Python `list.insert(i, x)` (inserts before index i, clamping at the
end). -/
def pyInsert {α : Type} : List α → Nat → α → List α
  | l, 0, x => x :: l
  | [], _ + 1, x => [x]
  | a :: l, n + 1, x => a :: pyInsert l n x

/-- The module-body assembly of `generate`. -/
def generate_module_body (imports : List BodyItem) (classes : List String)
    (classes_to_generate : List (String × Value)) (mainName : String) :
    List BodyItem :=
  let base_length := imports.length
  let body := classes.foldl (fun body class_name =>
    if hasKey classes_to_generate class_name then
      pyInsert body base_length (.nestedClass class_name)
    else body) imports
  body ++ [.mainClass mainName]

/-- C6 counterexample: two nested classes A and B, discovered in that
order (classes list [Main, A, B]), are emitted as B then A — inserting
each class at the fixed index just after the imports reverses the
discovery order, refuting the claim that the nested definitions appear
in discovery order. -/
theorem C6_counterexample :
    generate_module_body [.importItem 0] ["Main", "A", "B"]
        [("A", .vnull), ("B", .vnull)] "Main" =
      [.importItem 0, .nestedClass "B", .nestedClass "A", .mainClass "Main"] ∧
    ["Main", "A", "B"].indexOf "A" < ["Main", "A", "B"].indexOf "B" ∧
    [BodyItem.importItem 0, .nestedClass "B", .nestedClass "A",
        .mainClass "Main"].indexOf (.nestedClass "B") <
      [BodyItem.importItem 0, .nestedClass "B", .nestedClass "A",
        .mainClass "Main"].indexOf (.nestedClass "A") :=
  ⟨rfl, by decide, by decide⟩

theorem pyInsert_append {α : Type} (l1 l2 : List α) (x : α) :
    pyInsert (l1 ++ l2) l1.length x = l1 ++ x :: l2 := by
  induction l1 with
  | nil => cases l2 <;> rfl
  | cons a rest ih => simpa [pyInsert] using ih

theorem generate_module_body_foldl (imports : List BodyItem)
    (classes : List String) (ctg : List (String × Value)) (acc : List BodyItem) :
    classes.foldl (fun body class_name =>
        if hasKey ctg class_name then
          pyInsert body imports.length (.nestedClass class_name)
        else body) (imports ++ acc) =
      imports ++
        ((classes.filter (fun n => hasKey ctg n)).reverse.map BodyItem.nestedClass)
        ++ acc := by
  induction classes generalizing acc with
  | nil => simp
  | cons c rest ih =>
    rw [List.foldl_cons]
    by_cases hc : hasKey ctg c
    · rw [if_pos hc, pyInsert_append, ih (BodyItem.nestedClass c :: acc)]
      simp [List.filter_cons, hc]
    · rw [if_neg hc, ih acc]
      simp [List.filter_cons, hc]

/-- C6 amended: every scheduled nested class definition appears before
the top-level class definition, but the nested definitions appear in
reverse discovery order (each is inserted at the fixed index directly
after the imports, so each newly discovered class is placed in front of
the previously emitted ones). -/
theorem C6_emission_order (imports : List BodyItem) (classes : List String)
    (classes_to_generate : List (String × Value)) (mainName : String) :
    generate_module_body imports classes classes_to_generate mainName =
      imports ++
        ((classes.filter (fun n => hasKey classes_to_generate n)).reverse.map
          BodyItem.nestedClass)
        ++ [BodyItem.mainClass mainName] := by
  have h := generate_module_body_foldl imports classes classes_to_generate []
  rw [List.append_nil] at h
  rw [generate_module_body]
  rw [h]
  simp

/-! ## generator.py : per-class emission of fixed-const primitives (claim C7)

The three emitters that mention a property: `_add_property_annotations`
(class-level field declarations), `_generate_init_method` (constructor
parameters) and `_generate_with_methods` (fluent mutators).  They all
consume the cached PropertyInfo list of `_get_properties_info`. -/

/-- Python ast expressions, as far as the emitters here need them. -/
inductive PyExpr where
  | pyName (id : String)
  | pyConst (v : Value)
  | pySubscript (base slice : PyExpr)
deriving Repr

/-- utils.py COMMON_AST_NODES; indexing a missing key raises KeyError. -/
def COMMON_AST_NODES : String → Option PyExpr
  | "string" => some (.pyName "str")
  | "number" => some (.pyName "int")
  | "boolean" => some (.pyName "bool")
  | "Any" => some (.pyName "Any")
  | "None" => some (.pyName "None")
  | "Asset" => some (.pyName "Asset")
  | "Optional" => some (.pyName "Optional")
  | "List" => some (.pyName "List")
  | "Union" => some (.pyName "Union")
  | "Dict" => some (.pyName "Dict")
  | "Literal" => some (.pyName "Literal")
  | "self" => some (.pyName "self")
  | "super" => some (.pyName "super")
  | _ => none

/-- Attribute read `node.type` (the TypeNode discriminant tag; the
NamedType property returns the wrapped node tag when present, else the
empty string). -/
def typeTagOf : Value → String
  | .anyType _ _ _ => "any"
  | .unknownType _ _ _ => "unknown"
  | .undefinedType _ _ _ => "undefined"
  | .nullType _ _ _ => "null"
  | .voidType _ _ _ => "void"
  | .stringType _ _ _ => "string"
  | .numberType _ _ _ => "number"
  | .booleanType _ _ _ => "boolean"
  | .neverType _ _ _ => "never"
  | .refType _ _ _ _ => "ref"
  | .objectType _ _ _ _ _ _ => "object"
  | .arrayType _ _ _ _ => "array"
  | .conditionalType _ _ _ => "conditional"
  | .tupleType _ _ _ _ _ _ => "tuple"
  | .andType _ _ => "and"
  | .orType _ _ => "or"
  | .templateLiteralType _ _ => "template"
  | .recordType _ _ _ => "record"
  | .functionType _ _ _ => "function"
  | .namedType base _ _ _ => typeTagOf base
  | .namedTypeWithGenerics base _ _ _ _ => typeTagOf base
  | _ => ""

/-- utils.py PropertyInfo (the cached entry `_get_properties_info`
produces per property; the ast annotation field is called ty here). -/
structure PropInfo where
  clean_name : String
  original_name : String
  node : Value
  required : Value
  ty : PyExpr
deriving Repr

/-- One emitted AnnAssign class-level field declaration. -/
structure FieldDecl where
  target : String
  annot : PyExpr
  value : Option PyExpr
deriving Repr

/-- The per-property body of the `_add_property_annotations` loop: a
fixed-const primitive gets `value = Constant(node.const)` and the
annotation `COMMON_AST_NODES[node.type]` (KeyError when that tag has no
entry); any other property keeps the cached annotation and no value. -/
def fieldDeclOf (p : PropInfo) : Except String FieldDecl :=
  if is_primitive_const p.node then
    match COMMON_AST_NODES (typeTagOf p.node) with
    | some a => .ok ⟨p.clean_name, a, some (.pyConst (constOf p.node))⟩
    | none => .error ("KeyError: " ++ typeTagOf p.node)
  else .ok ⟨p.clean_name, p.ty, none⟩

/-- `_add_property_annotations`: the emitted field declarations, one per
property in order (the _propMap rename table the source may append after
the loop carries no property declaration and is not modelled). -/
def add_property_annotations : List PropInfo → Except String (List FieldDecl)
  | [] => .ok []
  | p :: rest => do
      let f ← fieldDeclOf p
      let fs ← add_property_annotations rest
      return f :: fs

/-- `properties_info.sort(key=required, reverse=True)`: Python sort is
stable and reverse=True keeps the relative order of equal keys, so for
the boolean key this is exactly required-first grouping. -/
def sortRequiredFirst (props : List PropInfo) : List PropInfo :=
  props.filter (fun p => pyTruthy p.required) ++
  props.filter (fun p => !(pyTruthy p.required))

/-- The constructor parameter names `_generate_init_method` builds:
`self`, the required properties in sorted order, then for asset classes
the id parameter, then the optional properties; properties whose node is
a fixed-const primitive are skipped (`continue`). -/
def init_method_params (properties_info : List PropInfo) (is_asset : Bool) :
    List String :=
  let sorted := sortRequiredFirst properties_info
  let required_args := "self" :: sorted.filterMap (fun p =>
    if is_primitive_const p.node then none
    else if pyTruthy p.required then some p.clean_name else none)
  let optional_args := (if is_asset then ["id"] else []) ++ sorted.filterMap (fun p =>
    if is_primitive_const p.node then none
    else if pyTruthy p.required then none else some p.clean_name)
  required_args ++ optional_args

/-- Python `s.startswith(pre)` where the receiver may be any value (the
generator only reaches this off RefType.ref fields, which are strings in
well-formed IR; a non-string would raise in Python). -/
def valueStartsWith (v : Value) (pre : String) : Bool :=
  match v with
  | .vstr s => s.startsWith pre
  | _ => false

/-- Attribute read `node.elementType` (ArrayType field; NamedType
delegates to the wrapped node). -/
def elementTypeOf : Value → Value
  | .arrayType el _ _ _ => el
  | .namedType base _ _ _ => elementTypeOf base
  | .namedTypeWithGenerics base _ _ _ _ => elementTypeOf base
  | _ => .vnull

/-- `_is_slot`: a RefType whose ref starts with Asset, or an array of
such RefTypes. -/
def is_slot (node : Value) : Bool :=
  if is_ref_type node then valueStartsWith (refOf node) "Asset"
  else if is_array_type node && is_ref_type (elementTypeOf node) then
    valueStartsWith (refOf (elementTypeOf node)) "Asset"
  else false

/-- The kind of fluent method emitted for one property. -/
inductive MutatorKind where
  | slotMut
  | arraySetMut
  | arrayAppendMut
  | simpleMut
deriving Repr, DecidableEq

/-- One emitted fluent method, keyed by the property it assigns (the
emitted Python method name, with plus titlecased clean name, is not
needed by any claim and is elided). -/
structure MutatorDecl where
  prop : String
  kind : MutatorKind
deriving Repr, DecidableEq

/-- `_generate_with_methods`: per property, skip fixed-const primitives,
then emit one slot-registration method for slot properties, a set and an
append method for array properties, or one simple setter otherwise. -/
def generate_with_methods (properties_info : List PropInfo) : List MutatorDecl :=
  properties_info.flatMap (fun p =>
    if is_primitive_const p.node then []
    else if is_slot p.node then [⟨p.clean_name, .slotMut⟩]
    else if is_array_type p.node then
      [⟨p.clean_name, .arraySetMut⟩, ⟨p.clean_name, .arrayAppendMut⟩]
    else [⟨p.clean_name, .simpleMut⟩])

/-- C7 counterexample: a property whose node is an AnyType primitive
carrying a non-null const is a fixed-const primitive, but its tag has no
entry in COMMON_AST_NODES (the table keys the capitalized Any, not the
tag any), so the field-annotation pass raises KeyError instead of
emitting the claimed field; the claim fails for six of the nine
primitive variants. -/
theorem C7_counterexample :
    is_primitive_const (Value.anyType (.vstr "x") .vnull []) = true ∧
    add_property_annotations
        [⟨"fixed", "fixed", .anyType (.vstr "x") .vnull [], .vbool true, .pyName "Any"⟩] =
      .error ("KeyError: any") :=
  ⟨rfl, rfl⟩

theorem add_property_annotations_mem {props : List PropInfo} {fields : List FieldDecl}
    (h : add_property_annotations props = .ok fields) {p : PropInfo} (hp : p ∈ props)
    {f : FieldDecl} (hf : fieldDeclOf p = .ok f) : f ∈ fields := by
  induction props generalizing fields with
  | nil => cases hp
  | cons q rest ih =>
    rw [add_property_annotations] at h
    cases hq : fieldDeclOf q with
    | error e => rw [hq] at h; exact absurd h (by simp [Bind.bind, Except.bind])
    | ok fq =>
      rw [hq] at h
      cases hrest : add_property_annotations rest with
      | error e => rw [hrest] at h; exact absurd h (by simp [Bind.bind, Except.bind])
      | ok frest =>
        rw [hrest] at h
        have hfields : fields = fq :: frest := by
          simpa [Bind.bind, Except.bind, pure, Except.pure] using h.symm
        subst hfields
        rcases List.mem_cons.mp hp with hpq | hpr
        · subst hpq
          rw [hq] at hf
          cases hf
          exact List.mem_cons_self _ _
        · exact List.mem_cons_of_mem _ (ih hrest hpr)

theorem mem_sortRequiredFirst {props : List PropInfo} {q : PropInfo}
    (h : q ∈ sortRequiredFirst props) : q ∈ props := by
  rcases List.mem_append.mp h with h1 | h1 <;> exact (List.mem_filter.mp h1).1

/-- C7 amended: for every property whose node is a fixed-const primitive
with a string, number or boolean tag (the tags with a scalar entry in
COMMON_AST_NODES; the other six primitive tags raise KeyError instead,
see the counterexample), and whose clean name is carried only by
fixed-const properties and is not one of the reserved parameter names,
the generated class has no constructor parameter and no fluent mutator
for that property, and the field-annotation pass emits for it a field
annotated with the mapped scalar type and valued with the const literal. -/
theorem C7_fixed_const_exclusion (properties_info : List PropInfo) (is_asset : Bool)
    (p : PropInfo) (hp : p ∈ properties_info)
    (hconst : is_primitive_const p.node = true)
    (htag : typeTagOf p.node = "string" ∨ typeTagOf p.node = "number" ∨
      typeTagOf p.node = "boolean")
    (hshared : ∀ q ∈ properties_info, q.clean_name = p.clean_name →
      is_primitive_const q.node = true)
    (hself : p.clean_name ≠ "self") (hid : p.clean_name ≠ "id") :
    p.clean_name ∉ init_method_params properties_info is_asset ∧
    (∀ m ∈ generate_with_methods properties_info, m.prop ≠ p.clean_name) ∧
    (∀ fields, add_property_annotations properties_info = .ok fields →
      ∃ a, COMMON_AST_NODES (typeTagOf p.node) = some a ∧
        (⟨p.clean_name, a, some (.pyConst (constOf p.node))⟩ : FieldDecl) ∈ fields) := by
  refine ⟨?_, ?_, ?_⟩
  · intro hmem
    rw [init_method_params] at hmem
    simp only [List.mem_append, List.mem_cons, List.mem_filterMap] at hmem
    rcases hmem with (hs | ⟨q, hq, hqe⟩) | hmem
    · exact hself hs
    · have hq' := hshared q (mem_sortRequiredFirst hq)
      by_cases hc : is_primitive_const q.node
      · rw [if_pos hc] at hqe; cases hqe
      · rw [if_neg hc] at hqe
        by_cases hr : pyTruthy q.required
        · rw [if_pos hr] at hqe
          exact hc (hq' (Option.some.inj hqe))
        · rw [if_neg hr] at hqe; cases hqe
    · rcases hmem with hid' | ⟨q, hq, hqe⟩
      · rcases is_asset with _ | _ <;> simp_all
      · have hq' := hshared q (mem_sortRequiredFirst hq)
        by_cases hc : is_primitive_const q.node
        · rw [if_pos hc] at hqe; cases hqe
        · rw [if_neg hc] at hqe
          by_cases hr : pyTruthy q.required
          · rw [if_pos hr] at hqe; cases hqe
          · rw [if_neg hr] at hqe
            exact hc (hq' (Option.some.inj hqe))
  · intro m hm hprop
    rw [generate_with_methods, List.mem_flatMap] at hm
    obtain ⟨q, hq, hmq⟩ := hm
    by_cases hc : is_primitive_const q.node
    · rw [if_pos hc] at hmq; cases hmq
    · rw [if_neg hc] at hmq
      have hname : m.prop = q.clean_name := by
        by_cases h1 : is_slot q.node
        · rw [if_pos h1] at hmq; simp at hmq; rw [hmq]
        · rw [if_neg h1] at hmq
          by_cases h2 : is_array_type q.node
          · rw [if_pos h2] at hmq
            rcases List.mem_cons.mp hmq with h3 | h3
            · rw [h3]
            · rcases List.mem_cons.mp h3 with h4 | h4
              · rw [h4]
              · cases h4
          · rw [if_neg h2] at hmq; simp at hmq; rw [hmq]
      exact hc (hshared q hq (hname ▸ hprop))
  · intro fields hfields
    rcases htag with ht | ht | ht <;>
      refine ⟨_, by rw [ht]; rfl, add_property_annotations_mem hfields hp ?_⟩ <;>
      · rw [fieldDeclOf, if_pos hconst, ht]
        rfl

/-- Witness property: StringType with const action (the spec test
scenario), already type-mapped to its constant literal. -/
def fixedDemoProp : PropInfo :=
  ⟨"fixed", "fixed", .stringType (.vstr "action") .vnull [], .vbool true,
    .pyConst (.vstr "action")⟩

/-- Witness property: a plain optional string property. -/
def plainDemoProp : PropInfo :=
  ⟨"value", "value", .stringType .vnull .vnull [], .vbool false, .pyName "str"⟩

/-- Witness for C7 amended at a concrete class with one fixed-const
string property and one plain property: the fixed property is absent
from the constructor parameters and the mutators, and its emitted field
is annotated str with the baked-in literal value. -/
theorem C7_fixed_const_exclusion_witness :
    "fixed" ∉ init_method_params [fixedDemoProp, plainDemoProp] true ∧
    (∀ m ∈ generate_with_methods [fixedDemoProp, plainDemoProp], m.prop ≠ "fixed") ∧
    (∃ a, COMMON_AST_NODES "string" = some a ∧
      (⟨"fixed", a, some (.pyConst (.vstr "action"))⟩ : FieldDecl) ∈
        [(⟨"fixed", .pyName "str", some (.pyConst (.vstr "action"))⟩ : FieldDecl),
         ⟨"value", .pyName "str", none⟩]) := by
  have h := C7_fixed_const_exclusion [fixedDemoProp, plainDemoProp] true fixedDemoProp
    (by simp) rfl (Or.inl rfl)
    (by
      intro q hq he
      rcases List.mem_cons.mp hq with h1 | h1
      · rw [h1]; rfl
      · rcases List.mem_cons.mp h1 with h2 | h2
        · rw [h2] at he
          exact absurd he (by simp [fixedDemoProp, plainDemoProp])
        · cases h2)
    (by decide) (by decide)
  exact ⟨h.1, h.2.1, h.2.2 _ rfl⟩
